import Mathlib

/-!
# Verification of the `@gibme/mfa` OTP library

Shallow embedding of the library's core: the `Secret` seed container
(`src/secret.ts`), the HOTP engine (`src/hotp.ts`), the TOTP adapter
(`src/totp.ts`) and the YubiKey remote-validator's canonical parameter
string (`YubiKeyOTP.construct_param_string`).

Bytes are modelled as `List Nat` with every element below 256 by
construction; JavaScript 32-bit arithmetic is modelled on `Nat` with
explicit reduction modulo `2^32` where overflow matters.
-/

namespace Mfa

/-- A byte string: each entry is a value `< 256` by construction. -/
abbrev Bytes := List Nat

/-- Reduce a machine word modulo `2^32`. -/
def u32 (x : Nat) : Nat := x % 4294967296

/-- Rotate a 32-bit word left by `n` bits. -/
def rotl (n x : Nat) : Nat := u32 ((x <<< n) ||| (x >>> (32 - n)))

/-- Big-endian byte serialization of `n` into exactly `k` bytes
(most significant byte first). -/
def beBytes : Nat → Nat → Bytes
  | 0, _ => []
  | k + 1, n => beBytes k (n >>> 8) ++ [n % 256]

/-- Modelled from the spec: `Writer.uint64_t(counter, true)` from the
external `@gibme/bytepack` package serializes the counter as an 8-byte
big-endian unsigned integer (spec 4.2 step 1). -/
def uint64BE (n : Nat) : Bytes := beBytes 8 n

/-- Pack a byte list into big-endian 32-bit words, four bytes per word. -/
def toWords : Bytes → List Nat
  | a :: b :: c :: d :: rest =>
      ((((a <<< 8) ||| b) <<< 8 ||| c) <<< 8 ||| d) :: toWords rest
  | _ => []

/-- SHA-1 message-schedule extension: prepend `n` more words to the
reversed word list `ws` (`w[i] = rotl1 (w[i-3] ^ w[i-8] ^ w[i-14] ^ w[i-16])`). -/
def sha1Extend : Nat → List Nat → List Nat
  | 0, ws => ws
  | n + 1, ws =>
      let w := rotl 1 (((ws.getD 2 0 ^^^ ws.getD 7 0) ^^^ ws.getD 13 0) ^^^ ws.getD 15 0)
      sha1Extend n (w :: ws)

/-- SHA-1 round function for round `i`. -/
def sha1F (i b c d : Nat) : Nat :=
  if i < 20 then (b &&& c) ||| ((b ^^^ 4294967295) &&& d)
  else if i < 40 then (b ^^^ c) ^^^ d
  else if i < 60 then ((b &&& c) ||| (b &&& d)) ||| (c &&& d)
  else (b ^^^ c) ^^^ d

/-- SHA-1 round constant for round `i`. -/
def sha1K (i : Nat) : Nat :=
  if i < 20 then 1518500249
  else if i < 40 then 1859775393
  else if i < 60 then 2400959708
  else 3395469782

/-- The 80 SHA-1 rounds over the word schedule `ws`, starting at round `i`. -/
def sha1Rounds : Nat → List Nat → Nat → Nat → Nat → Nat → Nat →
    Nat × Nat × Nat × Nat × Nat
  | _, [], a, b, c, d, e => (a, b, c, d, e)
  | i, w :: ws, a, b, c, d, e =>
      let t := u32 (rotl 5 a + sha1F i b c d + e + sha1K i + w)
      sha1Rounds (i + 1) ws t a (rotl 30 b) c d

/-- One SHA-1 compression step on a 64-byte block. -/
def sha1Block (h : Nat × Nat × Nat × Nat × Nat) (block : Bytes) :
    Nat × Nat × Nat × Nat × Nat :=
  let ws := (sha1Extend 64 (toWords block).reverse).reverse
  let (h0, h1, h2, h3, h4) := h
  let (a, b, c, d, e) := sha1Rounds 0 ws h0 h1 h2 h3 h4
  (u32 (h0 + a), u32 (h1 + b), u32 (h2 + c), u32 (h3 + d), u32 (h4 + e))

/-- Split a byte list into 64-byte chunks; the fuel argument is any bound
on the number of chunks (callers pass `msg.length + 1`, which suffices). -/
def chunks64 : Nat → Bytes → List Bytes
  | 0, _ => []
  | _, [] => []
  | n + 1, msg => msg.take 64 :: chunks64 n (msg.drop 64)

/-- SHA-1 padding: append `0x80`, zero bytes up to 56 mod 64, and the
bit length as an 8-byte big-endian integer. -/
def sha1Pad (msg : Bytes) : Bytes :=
  msg ++ [128] ++ List.replicate ((119 - msg.length % 64) % 64) 0 ++
    beBytes 8 (msg.length * 8)

/-- SHA-1 of a byte string, as a 20-byte digest. -/
def sha1 (msg : Bytes) : Bytes :=
  let padded := sha1Pad msg
  let final := (chunks64 (padded.length + 1) padded).foldl sha1Block
    (1732584193, 4023233417, 2562383102, 271733878, 3285377520)
  let (h0, h1, h2, h3, h4) := final
  beBytes 4 h0 ++ beBytes 4 h1 ++ beBytes 4 h2 ++ beBytes 4 h3 ++ beBytes 4 h4

/-- HMAC-SHA1 (RFC 2104) of `msg` under `key`; this is what node's
`createHmac('sha1', key).update(payload).digest()` computes. -/
def hmacSha1 (key msg : Bytes) : Bytes :=
  let k0 := if 64 < key.length then sha1 key else key
  let k := k0 ++ List.replicate (64 - k0.length) 0
  sha1 ((k.map fun b => b ^^^ 92) ++ sha1 ((k.map fun b => b ^^^ 54) ++ msg))

/-- The error raised by the external `@gibme/base32` decoder when the
seed text is not valid Base32 (spec 4.1, `DecodeError`). -/
inductive DecodeError
  | decodeError
deriving DecidableEq

/-- The seed accepted by the `Secret` constructor options: raw bytes
(a `Buffer`) or a Base32-encoded string. -/
inductive SecretSeed
  | buf (b : Bytes)
  | str (s : String)
deriving DecidableEq

/-- `SecretOptions` from `src/secret.ts`; every field is optional. -/
structure SecretOptions where
  secret : Option SecretSeed := none
  secretEncoding : Option String := none
  size : Option Nat := none
deriving DecidableEq

/-- The `Secret` constructor from `src/secret.ts`, returning the
`buffer` field of the constructed object.  `size ||= 20` (so a falsy
`0` also becomes 20), a `Buffer` seed is adopted directly, a truthy
(non-empty) string seed is Base32-decoded, and otherwise `size` random
bytes are generated.  `decode` stands for the external `Base32.decode`
(which can fail with a decode error) and `randomBytes` for node's
`crypto.randomBytes`. -/
def Secret.make (decode : String → Except DecodeError Bytes)
    (randomBytes : Nat → Bytes) (cfg : SecretOptions) :
    Except DecodeError Bytes :=
  let size := match cfg.size with
    | some n => if n = 0 then 20 else n
    | none => 20
  match cfg.secret with
  | some (.buf b) => .ok b
  | some (.str s) => if s = "" then .ok (randomBytes size) else decode s
  | none => .ok (randomBytes size)

/-- The `Secret` constructor when handed a plain string `configOrSeed`:
the source wraps it as `{ secret: configOrSeed }`. -/
def Secret.ofStr (decode : String → Except DecodeError Bytes)
    (randomBytes : Nat → Bytes) (s : String) : Except DecodeError Bytes :=
  Secret.make decode randomBytes { secret := some (.str s) }

/-- `HOTP.DigestAlgorithm` from `src/hotp.ts`. -/
inductive DigestAlgorithm
  | SHA1
  | SHA224
  | SHA256
  | SHA384
  | SHA512
deriving DecidableEq

/-- The `secret` field of `HOTP.Config`: an already-constructed
`Secret` instance (identified with its byte buffer) or a seed string. -/
inductive SecretParam
  | sec (b : Bytes)
  | str (s : String)
deriving DecidableEq

/-- `Partial<HOTP.Config>` from `src/hotp.ts`: the caller-supplied
configuration object, every field optional. -/
structure HOTPConfigOpt where
  issuer : Option String := none
  label : Option String := none
  algorithm : Option DigestAlgorithm := none
  digits : Option Nat := none
  counter : Option Nat := none
  window : Option Nat := none
  secret : Option SecretParam := none
deriving DecidableEq

/-- The fully-merged view of a configuration, as consumed by the token
computation. -/
structure HOTPFinal where
  issuer : String
  label : String
  algorithm : DigestAlgorithm
  digits : Nat
  counter : Nat
  window : Nat
  secret : Bytes
deriving DecidableEq

/-- Read a configuration using the same defaults `HOTP.mergeConfig`
fills in, so on a merged configuration none of the defaults fire.  The
`secret` arm for a non-resolved secret is never reached on merged
configurations (merging always resolves the secret to an instance). -/
def HOTPConfigOpt.final (c : HOTPConfigOpt) : HOTPFinal where
  issuer := c.issuer.getD ""
  label := c.label.getD "HOTP Authenticator"
  algorithm := c.algorithm.getD .SHA1
  digits := c.digits.getD 6
  counter := c.counter.getD 0
  window := c.window.getD 1
  secret := match c.secret with
    | some (.sec b) => b
    | _ => []

/-- The secret-resolution block of `HOTP.mergeConfig`:
`config.secret ??= new Secret()` followed by
`if (!(config.secret instanceof Secret)) config.secret = new Secret(config.secret)`.
An already-constructed instance is kept; a seed string goes through the
`Secret` constructor (so an invalid Base32 seed propagates its decode
error); an absent secret becomes a fresh random `Secret`. -/
def resolveSecret (decode : String → Except DecodeError Bytes)
    (randomBytes : Nat → Bytes) (c : HOTPConfigOpt) :
    Except DecodeError Bytes :=
  match c.secret with
  | some (.sec b) => .ok b
  | some (.str s) => Secret.ofStr decode randomBytes s
  | none => Secret.make decode randomBytes {}

/-- The `??=` default-filling phase of `HOTP.mergeConfig`, with the
secret already resolved to the instance `b`: this is the caller's
configuration object after the in-place mutation the source performs. -/
def HOTP.fillSec (c : HOTPConfigOpt) (b : Bytes) : HOTPConfigOpt where
  issuer := some (c.issuer.getD "")
  label := some (c.label.getD "HOTP Authenticator")
  algorithm := some (c.algorithm.getD .SHA1)
  digits := some (c.digits.getD 6)
  counter := some (c.counter.getD 0)
  window := some (c.window.getD 1)
  secret := some (.sec b)

/-- `HOTP.mergeConfig` from `src/hotp.ts`: fill every missing field
with its default via `??=` assignments on the caller's own object and
resolve a missing or string-valued secret into a `Secret` instance.
The returned configuration *is* the caller's object after the in-place
mutation performed by the source. -/
def HOTP.mergeConfig (decode : String → Except DecodeError Bytes)
    (randomBytes : Nat → Bytes) (c : HOTPConfigOpt) :
    Except DecodeError HOTPConfigOpt :=
  match resolveSecret decode randomBytes c with
  | .ok b => .ok (HOTP.fillSec c b)
  | .error e => .error e

/-- JavaScript's `String.prototype.padStart`. -/
def padStart (s : String) (n : Nat) (c : Char) : String :=
  String.mk (List.replicate (n - s.length) c) ++ s

/-- The token computation of `HOTP.generate` after the config merge:
serialize the counter as 8 big-endian bytes, digest it, dynamically
truncate, reduce modulo `10^digits`, and left-pad with zeros.
`digest alg key payload` stands for node's
`createHmac(alg, key).update(payload).digest()`, which is external to
the repository. -/
def HOTP.generateCore (digest : DigestAlgorithm → Bytes → Bytes → Bytes)
    (f : HOTPFinal) : String :=
  let d := digest f.algorithm f.secret (uint64BE f.counter)
  let offset := d.getD (d.length - 1) 0 &&& 15
  let otp := (((d.getD offset 0 &&& 127) <<< 24) |||
      ((d.getD (offset + 1) 0 &&& 255) <<< 16) |||
      ((d.getD (offset + 2) 0 &&& 255) <<< 8) |||
      (d.getD (offset + 3) 0 &&& 255)) % 10 ^ f.digits
  padStart (toString otp) f.digits '0'

/-- `HOTP.generate` from `src/hotp.ts`: merge the configuration, then
compute the token; returns the token together with the resolved secret. -/
def HOTP.generate (digest : DigestAlgorithm → Bytes → Bytes → Bytes)
    (decode : String → Except DecodeError Bytes) (randomBytes : Nat → Bytes)
    (c : HOTPConfigOpt) : Except DecodeError (String × Bytes) :=
  match HOTP.mergeConfig decode randomBytes c with
  | .error e => .error e
  | .ok m => .ok (HOTP.generateCore digest m.final, m.final.secret)

/-- The token the engine would produce for configuration `c` at counter
`n` (all other fields as configured). -/
def HOTP.tokenAt (digest : DigestAlgorithm → Bytes → Bytes → Bytes)
    (c : HOTPConfigOpt) (n : Nat) : String :=
  HOTP.generateCore digest { c.final with counter := n }

/-- The scan of `HOTP.verify`: try the counters in the given ascending
list, skipping negative ones (`continue`); on the first token match
return that counter (`break`). -/
def HOTP.scan (gen : Int → Except DecodeError String) (otp : String) :
    List Int → Except DecodeError (Option Int)
  | [] => .ok none
  | i :: rest =>
      if i < 0 then HOTP.scan gen otp rest
      else
        match gen i with
        | .error e => .error e
        | .ok token => if token = otp then .ok (some i) else HOTP.scan gen otp rest

/-- `n` consecutive integers counting up from `lo`. -/
def intRangeGo : Nat → Int → List Int
  | 0, _ => []
  | n + 1, lo => lo :: intRangeGo n (lo + 1)

/-- The closed integer interval `[lo, hi]` as an ascending list: the
counters visited by the `for` loop of `HOTP.verify`. -/
def intRange (lo hi : Int) : List Int := intRangeGo (hi + 1 - lo).toNat lo

/-- `HOTP.verify` from `src/hotp.ts`: merge the configuration (the
caller's object is mutated in place in the source, so the loop's spread
`{...config, counter: i}` sees the merged fields and the resolved
secret), normalize a numeric candidate by zero-padding, reject a
candidate whose length differs from the digit count before any digest
work, then scan counters `counter - window` to `counter + window`.
On the first match `delta = i - counter` is recorded and the loop
stops; the result is `(delta !== null, delta)`. -/
def HOTP.verify (digest : DigestAlgorithm → Bytes → Bytes → Bytes)
    (decode : String → Except DecodeError Bytes) (randomBytes : Nat → Bytes)
    (otp : String ⊕ Nat) (c : HOTPConfigOpt) :
    Except DecodeError (Bool × Option Int) :=
  match HOTP.mergeConfig decode randomBytes c with
  | .error e => .error e
  | .ok m =>
    let f := m.final
    let otps := match otp with
      | .inl s => s
      | .inr n => padStart (toString n) f.digits '0'
    if otps.length ≠ f.digits then .ok (false, none)
    else
      match HOTP.scan
          (fun i =>
            match HOTP.generate digest decode randomBytes
                { m with counter := some i.toNat } with
            | .error e => .error e
            | .ok p => .ok p.1)
          otps (intRange ((f.counter : Int) - f.window) ((f.counter : Int) + f.window)) with
      | .error e => .error e
      | .ok r => .ok ((r.map fun i => i - (f.counter : Int)).isSome,
          r.map fun i => i - (f.counter : Int))

/-- `Partial<TOTP.Config>` from `src/totp.ts`: the HOTP fields plus the
optional period and timestamp.  Timestamps are modelled in whole
seconds (the source's `new Date(t * 1000).getTime() / 1000` round-trips
a numeric seconds value). -/
structure TOTPConfigOpt extends HOTPConfigOpt where
  period : Option Nat := none
  timestamp : Option Nat := none
deriving DecidableEq

/-- `TOTP._mergeConfig` from `src/totp.ts`: default the label to
"TOTP Authenticator" and the period to 30, resolve the timestamp
(`now` stands for the external `new Date()`), stomp over any supplied
counter with `floor(timestamp / period)`, then run the HOTP merge on
the same (caller-owned, mutated in place) object. -/
def TOTP.mergeConfig (decode : String → Except DecodeError Bytes)
    (randomBytes : Nat → Bytes) (now : Nat) (c : TOTPConfigOpt) :
    Except DecodeError TOTPConfigOpt :=
  let period := c.period.getD 30
  let ts := c.timestamp.getD now
  let c := { c with
    label := some (c.label.getD "TOTP Authenticator")
    period := some period
    timestamp := some ts
    counter := some (ts / period) }
  match HOTP.mergeConfig decode randomBytes c.toHOTPConfigOpt with
  | .error e => .error e
  | .ok m => .ok { c with toHOTPConfigOpt := m }

/-- `TOTP.generate` from `src/totp.ts`: run the TOTP merge, then
`super.generate` on the merged object. -/
def TOTP.generate (digest : DigestAlgorithm → Bytes → Bytes → Bytes)
    (decode : String → Except DecodeError Bytes) (randomBytes : Nat → Bytes)
    (now : Nat) (c : TOTPConfigOpt) : Except DecodeError (String × Bytes) :=
  match TOTP.mergeConfig decode randomBytes now c with
  | .error e => .error e
  | .ok m => HOTP.generate digest decode randomBytes m.toHOTPConfigOpt

/-- `TOTP.verify` from `src/totp.ts`: run the TOTP merge, then
`super.verify` on the merged object. -/
def TOTP.verify (digest : DigestAlgorithm → Bytes → Bytes → Bytes)
    (decode : String → Except DecodeError Bytes) (randomBytes : Nat → Bytes)
    (now : Nat) (otp : String ⊕ Nat) (c : TOTPConfigOpt) :
    Except DecodeError (Bool × Option Int) :=
  match TOTP.mergeConfig decode randomBytes now c with
  | .error e => .error e
  | .ok m => HOTP.verify digest decode randomBytes otp m.toHOTPConfigOpt

/-- Lexicographic comparison of character lists by code point:
JavaScript's default `Array.prototype.sort` comparator on strings
(code-unit order; the protocol's keys are ASCII, where code units and
code points agree). -/
def charsLe : List Char → List Char → Bool
  | [], _ => true
  | _ :: _, [] => false
  | a :: as, b :: bs =>
      if a.toNat < b.toNat then true
      else if b.toNat < a.toNat then false
      else charsLe as bs

/-- String comparison used to sort parameter keys. -/
def keyLe (a b : String) : Bool := charsLe a.data b.data

/-- Insert a key-value pair into a list sorted by key. -/
def insertByKey (p : String × String) :
    List (String × String) → List (String × String)
  | [] => [p]
  | q :: rest =>
      if keyLe p.1 q.1 then p :: q :: rest else q :: insertByKey p rest

/-- Insertion sort by key. -/
def sortByKey : List (String × String) → List (String × String)
  | [] => []
  | p :: rest => insertByKey p (sortByKey rest)

/-- `YubiKeyOTP.construct_param_string` from `src/hotp.ts`: take every
parameter key except `h`, sort the keys lexicographically, and join the
entries as `key=value` pairs with `&`.  A JavaScript object's keys are
distinct, so the parameter object is modelled as a key-value list. -/
def YubiKeyOTP.construct_param_string (params : List (String × String)) : String :=
  String.intercalate "&"
    ((sortByKey (params.filter fun p => p.1 ≠ "h")).map fun p => p.1 ++ "=" ++ p.2)

/-- `createHmac` instantiated for concrete evaluations whose configured
algorithm is SHA1: every algorithm tag is mapped to HMAC-SHA1.  Only
used in closed theorems whose configuration pins `algorithm := SHA1`,
so the value at the other tags is never consulted. -/
def createHmacSHA1 (_ : DigestAlgorithm) (key msg : Bytes) : Bytes :=
  hmacSha1 key msg

/-- A concrete stand-in for `Base32.decode` in closed theorems whose
configuration supplies the secret as an instance, so the decoder is
never consulted. -/
def b32fail (_ : String) : Except DecodeError Bytes := .error .decodeError

/-- A concrete stand-in for `crypto.randomBytes` in closed theorems:
`n` zero bytes. -/
def rbZero (n : Nat) : Bytes := List.replicate n 0

/-- A digest function that computes nothing: used to witness that the
length guard of `HOTP.verify` consults no digest at all. -/
def digestNull (_ : DigestAlgorithm) (_ : Bytes) (_ : Bytes) : Bytes := []

/-- The RFC 6238 test secret, the ASCII bytes of
`"12345678901234567890"` (Base32 `GEZDGNBVGY3TQOJQGEZDGNBVGY3TQOJQ`). -/
def rfcSeed : Bytes :=
  [49, 50, 51, 52, 53, 54, 55, 56, 57, 48,
   49, 50, 51, 52, 53, 54, 55, 56, 57, 48]

/-- A 4-byte secret whose SHA1 tokens at counters 0 and 1 coincide
(both are "071945"): a 6-digit token collision inside a verify window. -/
def collisionSeed : Bytes := [0, 24, 134, 137]

deriving instance DecidableEq for Except

set_option maxRecDepth 1000000

/-- FIPS 180-1 test vector: SHA-1 of the empty message. -/
theorem sha1_nil_vector : sha1 [] = [0xda, 0x39, 0xa3, 0xee, 0x5e, 0x6b, 0x4b,
    0x0d, 0x32, 0x55, 0xbf, 0xef, 0x95, 0x60, 0x18, 0x90, 0xaf, 0xd8, 0x07,
    0x09] := by decide

/-- FIPS 180-1 test vector: SHA-1 of "abc". -/
theorem sha1_abc_vector : sha1 [97, 98, 99] = [0xa9, 0x99, 0x3e, 0x36, 0x47,
    0x06, 0x81, 0x6a, 0xba, 0x3e, 0x25, 0x71, 0x78, 0x50, 0xc2, 0x6c, 0x9c,
    0xd0, 0xd8, 0x9d] := by decide

/-- HMAC-SHA1 of message "hi" under key "abc", cross-checked against
node's `createHmac`. -/
theorem hmacSha1_vector : hmacSha1 [97, 98, 99] [104, 105] = [0x75, 0x5f,
    0x77, 0x6d, 0xf0, 0x65, 0x29, 0x23, 0xd9, 0x0a, 0x05, 0xa1, 0xe1, 0xc7,
    0xcb, 0xcf, 0x98, 0xce, 0x05, 0xd6] := by decide

theorem mem_intRangeGo {n : Nat} {lo i : Int} :
    i ∈ intRangeGo n lo ↔ lo ≤ i ∧ i < lo + n := by
  induction n generalizing lo with
  | zero => simp [intRangeGo]
  | succ n ih =>
    simp only [intRangeGo, List.mem_cons, ih]
    constructor
    · rintro (rfl | h) <;> omega
    · intro h
      by_cases hi : i = lo
      · exact Or.inl hi
      · exact Or.inr (by omega)

theorem mem_intRange {lo hi i : Int} : i ∈ intRange lo hi ↔ lo ≤ i ∧ i ≤ hi := by
  unfold intRange
  rw [mem_intRangeGo]
  omega

theorem intRangeGo_pairwise (n : Nat) (lo : Int) :
    (intRangeGo n lo).Pairwise (· < ·) := by
  induction n generalizing lo with
  | zero => exact List.Pairwise.nil
  | succ n ih =>
    refine List.Pairwise.cons (fun b hb => ?_) (ih (lo + 1))
    rw [mem_intRangeGo] at hb
    omega

theorem intRange_pairwise (lo hi : Int) : (intRange lo hi).Pairwise (· < ·) :=
  intRangeGo_pairwise _ _

theorem HOTP.scan_first (tok : Int → String) (otp : String) (l : List Int)
    (i₀ : Int) (hpw : l.Pairwise (· < ·)) (hmem : i₀ ∈ l) (h₀ : 0 ≤ i₀)
    (hm : tok i₀ = otp) (hlt : ∀ j ∈ l, 0 ≤ j → j < i₀ → tok j ≠ otp) :
    HOTP.scan (fun i => .ok (tok i)) otp l = .ok (some i₀) := by
  induction l with
  | nil => cases hmem
  | cons a l ih =>
    rw [List.pairwise_cons] at hpw
    rcases List.mem_cons.mp hmem with rfl | hmem'
    · unfold HOTP.scan
      rw [if_neg (by omega)]
      simp [hm]
    · have halt : a < i₀ := hpw.1 _ hmem'
      unfold HOTP.scan
      by_cases ha : a < 0
      · rw [if_pos ha]
        exact ih hpw.2 hmem' fun j hj => hlt j (List.mem_cons_of_mem _ hj)
      · rw [if_neg ha]
        have hne : tok a ≠ otp := hlt a (List.mem_cons_self _ _) (by omega) halt
        simp only [if_neg hne]
        exact ih hpw.2 hmem' fun j hj => hlt j (List.mem_cons_of_mem _ hj)

theorem HOTP.scan_none (tok : Int → String) (otp : String) (l : List Int)
    (h : ∀ j ∈ l, 0 ≤ j → tok j ≠ otp) :
    HOTP.scan (fun i => .ok (tok i)) otp l = .ok none := by
  induction l with
  | nil => rfl
  | cons a l ih =>
    unfold HOTP.scan
    by_cases ha : a < 0
    · rw [if_pos ha]
      exact ih fun j hj => h j (List.mem_cons_of_mem _ hj)
    · rw [if_neg ha]
      have hne : tok a ≠ otp := h a (List.mem_cons_self _ _) (by omega)
      simp only [if_neg hne]
      exact ih fun j hj => h j (List.mem_cons_of_mem _ hj)

theorem HOTP.merge_sec (dec : String → Except DecodeError Bytes)
    (rb : Nat → Bytes) (c : HOTPConfigOpt) (s : Bytes)
    (hs : c.secret = some (.sec s)) :
    HOTP.mergeConfig dec rb c = .ok (HOTP.fillSec c s) := by
  unfold HOTP.mergeConfig resolveSecret
  rw [hs]


theorem HOTP.generate_fillSec_counter (digest : DigestAlgorithm → Bytes → Bytes → Bytes)
    (dec : String → Except DecodeError Bytes) (rb : Nat → Bytes)
    (c : HOTPConfigOpt) (s : Bytes) (hs : c.secret = some (.sec s)) (n : Nat) :
    HOTP.generate digest dec rb { HOTP.fillSec c s with counter := some n } =
      .ok (HOTP.tokenAt digest c n, s) := by
  obtain ⟨i, l, a, dg, cnt, w, sec⟩ := c
  dsimp only at hs
  subst hs
  rfl

theorem HOTP.merge_sec_final (c : HOTPConfigOpt) (s : Bytes)
    (hs : c.secret = some (.sec s)) : (HOTP.fillSec c s).final = c.final := by
  obtain ⟨i, l, a, dg, cnt, w, sec⟩ := c
  dsimp only at hs
  subst hs
  rfl


theorem HOTP.verify_first_match (digest : DigestAlgorithm → Bytes → Bytes → Bytes)
    (dec : String → Except DecodeError Bytes) (rb : Nat → Bytes)
    (c : HOTPConfigOpt) (s : Bytes) (hs : c.secret = some (.sec s)) (t : String)
    (hlen : t.length = c.digits.getD 6) (i₀ : Nat)
    (hlo : c.counter.getD 0 ≤ i₀ + c.window.getD 1)
    (hhi : i₀ ≤ c.counter.getD 0 + c.window.getD 1)
    (hmatch : HOTP.tokenAt digest c i₀ = t)
    (hfirst : ∀ j : Nat, j < i₀ → c.counter.getD 0 ≤ j + c.window.getD 1 →
        HOTP.tokenAt digest c j ≠ t) :
    HOTP.verify digest dec rb (.inl t) c =
      .ok (true, some ((i₀ : Int) - c.counter.getD 0)) := by
  unfold HOTP.verify
  rw [HOTP.merge_sec dec rb c s hs]
  dsimp only
  rw [if_neg (fun h => h (by
    show t.length = ((HOTP.fillSec c s).final).digits
    exact hlen))]
  have hgen : ∀ i : Int,
      (match HOTP.generate digest dec rb
          { HOTP.fillSec c s with counter := some i.toNat } with
        | Except.error e => Except.error e
        | Except.ok p => Except.ok p.1) =
        (Except.ok (HOTP.tokenAt digest c i.toNat) :
          Except DecodeError String) := by
    intro i
    rw [HOTP.generate_fillSec_counter digest dec rb c s hs]
  simp only [hgen]
  have hcnt : ((HOTP.fillSec c s).final).counter = c.counter.getD 0 := rfl
  have hwin : ((HOTP.fillSec c s).final).window = c.window.getD 1 := rfl
  rw [HOTP.scan_first (fun i => HOTP.tokenAt digest c i.toNat) t _ (i₀ : Int)
    (intRange_pairwise _ _)
    (mem_intRange.mpr (by rw [hcnt, hwin]; omega))
    (by omega)
    (by simp only [Int.toNat_natCast]; exact hmatch)
    (fun j hj h0 hlt => by
      rw [mem_intRange, hcnt, hwin] at hj
      exact hfirst j.toNat (by omega) (by omega))]
  rfl


theorem HOTP.verify_no_match (digest : DigestAlgorithm → Bytes → Bytes → Bytes)
    (dec : String → Except DecodeError Bytes) (rb : Nat → Bytes)
    (c : HOTPConfigOpt) (s : Bytes) (hs : c.secret = some (.sec s)) (t : String)
    (hnone : ∀ j : Nat, c.counter.getD 0 ≤ j + c.window.getD 1 →
        j ≤ c.counter.getD 0 + c.window.getD 1 → HOTP.tokenAt digest c j ≠ t) :
    HOTP.verify digest dec rb (.inl t) c = .ok (false, none) := by
  unfold HOTP.verify
  rw [HOTP.merge_sec dec rb c s hs]
  dsimp only
  by_cases hl : t.length = ((HOTP.fillSec c s).final).digits
  · rw [if_neg (fun h => h hl)]
    have hgen : ∀ i : Int,
        (match HOTP.generate digest dec rb
            { HOTP.fillSec c s with counter := some i.toNat } with
          | Except.error e => Except.error e
          | Except.ok p => Except.ok p.1) =
          (Except.ok (HOTP.tokenAt digest c i.toNat) :
            Except DecodeError String) := by
      intro i
      rw [HOTP.generate_fillSec_counter digest dec rb c s hs]
    simp only [hgen]
    have hcnt : ((HOTP.fillSec c s).final).counter = c.counter.getD 0 := rfl
    have hwin : ((HOTP.fillSec c s).final).window = c.window.getD 1 := rfl
    rw [HOTP.scan_none (fun i => HOTP.tokenAt digest c i.toNat) t _
      (fun j hj h0 => by
        rw [mem_intRange, hcnt, hwin] at hj
        have := hnone j.toNat (by omega) (by omega)
        simpa using this)]
    rfl
  · rw [if_pos hl]

theorem HOTP.tokenAt_congr (digest : DigestAlgorithm → Bytes → Bytes → Bytes)
    (c c' : HOTPConfigOpt) (n : Nat) (hA : c.algorithm = c'.algorithm)
    (hD : c.digits = c'.digits) (hS : c.secret = c'.secret) :
    HOTP.tokenAt digest c n = HOTP.tokenAt digest c' n := by
  obtain ⟨i, l, a, dg, cnt, w, sec⟩ := c
  obtain ⟨i', l', a', dg', cnt', w', sec'⟩ := c'
  dsimp only at hA hD hS
  subst hA
  subst hD
  subst hS
  rfl

theorem HOTP.generate_set_counter (digest : DigestAlgorithm → Bytes → Bytes → Bytes)
    (dec : String → Except DecodeError Bytes) (rb : Nat → Bytes)
    (c : HOTPConfigOpt) (s : Bytes) (hs : c.secret = some (.sec s)) (n : Nat) :
    HOTP.generate digest dec rb { c with counter := some n } =
      .ok (HOTP.tokenAt digest c n, s) := by
  obtain ⟨i, l, a, dg, cnt, w, sec⟩ := c
  dsimp only at hs
  subst hs
  rfl


theorem HOTP.mergeConfig_fields (dec : String → Except DecodeError Bytes)
    (rb : Nat → Bytes) (c m : HOTPConfigOpt)
    (hm : HOTP.mergeConfig dec rb c = .ok m) :
    m.issuer = some (c.issuer.getD "") ∧
    m.label = some (c.label.getD "HOTP Authenticator") ∧
    m.algorithm = some (c.algorithm.getD .SHA1) ∧
    m.digits = some (c.digits.getD 6) ∧
    m.counter = some (c.counter.getD 0) ∧
    m.window = some (c.window.getD 1) := by
  unfold HOTP.mergeConfig at hm
  cases h : resolveSecret dec rb c with
  | error e => rw [h] at hm; cases hm
  | ok b =>
    rw [h] at hm
    dsimp only at hm
    cases hm
    exact ⟨rfl, rfl, rfl, rfl, rfl, rfl⟩

theorem TOTP.mergeFields (dec : String → Except DecodeError Bytes)
    (rb : Nat → Bytes) (now : Nat) (c m : TOTPConfigOpt)
    (hm : TOTP.mergeConfig dec rb now c = .ok m) :
    m.label = some (c.label.getD "TOTP Authenticator") ∧
    m.period = some (c.period.getD 30) ∧
    m.timestamp = some (c.timestamp.getD now) ∧
    m.counter = some (c.timestamp.getD now / c.period.getD 30) ∧
    m.window = some (c.window.getD 1) ∧
    m.digits = some (c.digits.getD 6) ∧
    m.algorithm = some (c.algorithm.getD .SHA1) ∧
    m.issuer = some (c.issuer.getD "") := by
  obtain ⟨⟨i, l, a, dg, cnt, w, sec⟩, per, ts⟩ := c
  unfold TOTP.mergeConfig at hm
  dsimp only at hm
  cases h : resolveSecret dec rb
      { issuer := i, label := some (l.getD "TOTP Authenticator"), algorithm := a,
        digits := dg, counter := some (ts.getD now / per.getD 30), window := w,
        secret := sec } with
  | error e =>
    unfold HOTP.mergeConfig at hm
    rw [h] at hm
    cases hm
  | ok b =>
    unfold HOTP.mergeConfig at hm
    rw [h] at hm
    dsimp only at hm
    cases hm
    exact ⟨rfl, rfl, rfl, rfl, rfl, rfl, rfl, rfl⟩


theorem HOTP.fillSec_idem (c : HOTPConfigOpt) (s : Bytes) :
    HOTP.fillSec (HOTP.fillSec c s) s = HOTP.fillSec c s := rfl

theorem HOTP.verify_fillSec (digest : DigestAlgorithm → Bytes → Bytes → Bytes)
    (dec : String → Except DecodeError Bytes) (rb : Nat → Bytes)
    (otp : String ⊕ Nat) (c : HOTPConfigOpt) (s : Bytes)
    (hs : c.secret = some (.sec s)) :
    HOTP.verify digest dec rb otp (HOTP.fillSec c s) =
      HOTP.verify digest dec rb otp c := by
  unfold HOTP.verify
  rw [HOTP.merge_sec dec rb c s hs, HOTP.merge_sec dec rb _ s rfl, HOTP.fillSec_idem]

theorem TOTP.verify_toHOTP (digest : DigestAlgorithm → Bytes → Bytes → Bytes)
    (dec : String → Except DecodeError Bytes) (rb : Nat → Bytes) (now : Nat)
    (otp : String ⊕ Nat) (c : TOTPConfigOpt) (s : Bytes)
    (hs : c.secret = some (.sec s)) :
    TOTP.verify digest dec rb now otp c =
      HOTP.verify digest dec rb otp
        { c.toHOTPConfigOpt with
            label := some (c.label.getD "TOTP Authenticator"),
            counter := some (c.timestamp.getD now / c.period.getD 30) } := by
  obtain ⟨⟨i, l, a, dg, cnt, w, sec⟩, per, ts⟩ := c
  dsimp only at hs
  subst hs
  unfold TOTP.verify TOTP.mergeConfig
  dsimp only
  rw [HOTP.merge_sec dec rb _ s rfl]
  dsimp only
  exact HOTP.verify_fillSec digest dec rb otp _ s rfl


theorem HOTP.generateCore_congr (digest : DigestAlgorithm → Bytes → Bytes → Bytes)
    (f g : HOTPFinal) (hA : f.algorithm = g.algorithm) (hD : f.digits = g.digits)
    (hC : f.counter = g.counter) (hS : f.secret = g.secret) :
    HOTP.generateCore digest f = HOTP.generateCore digest g := by
  unfold HOTP.generateCore
  rw [hA, hD, hC, hS]

theorem TOTP.generate_counter_stomp (digest : DigestAlgorithm → Bytes → Bytes → Bytes)
    (dec : String → Except DecodeError Bytes) (rb : Nat → Bytes) (now : Nat)
    (c : TOTPConfigOpt) (sp : SecretParam) (hs : c.secret = some sp) :
    TOTP.generate digest dec rb now c =
      HOTP.generate digest dec rb
        { c.toHOTPConfigOpt with
            counter := some (c.timestamp.getD now / c.period.getD 30) } := by
  obtain ⟨⟨i, l, a, dg, cnt, w, sec⟩, per, ts⟩ := c
  dsimp only at hs
  subst hs
  unfold TOTP.generate TOTP.mergeConfig HOTP.generate HOTP.mergeConfig resolveSecret
  dsimp only
  cases sp with
  | sec b =>
    exact congrArg (fun z => Except.ok (z, b))
      (HOTP.generateCore_congr digest _ _ rfl rfl rfl rfl)
  | str t2 =>
    cases hd : Secret.ofStr dec rb t2 with
    | error e =>
      dsimp only
      rw [hd]
    | ok b =>
      dsimp only
      rw [hd]
      dsimp only
      exact congrArg (fun z => Except.ok (z, b))
        (HOTP.generateCore_congr digest _ _ rfl rfl rfl rfl)

/-- C2: during `HOTP.verify`'s scan of counters `counter - window` to
`counter + window` (negative counters skipped), the first matching
counter `i₀` determines the result: `delta = i₀ - counter` and the scan
stops, so no constraint is placed on any counter after `i₀` — in
particular, when two counters in the window both produce the candidate
token, the smaller (first-scanned) one determines the returned delta. -/
theorem claim2_first_match (digest : DigestAlgorithm → Bytes → Bytes → Bytes)
    (dec : String → Except DecodeError Bytes) (rb : Nat → Bytes)
    (c : HOTPConfigOpt) (s : Bytes) (hs : c.secret = some (.sec s)) (t : String)
    (hlen : t.length = c.digits.getD 6) (i₀ : Nat)
    (hlo : c.counter.getD 0 ≤ i₀ + c.window.getD 1)
    (hhi : i₀ ≤ c.counter.getD 0 + c.window.getD 1)
    (hmatch : HOTP.tokenAt digest c i₀ = t)
    (hfirst : ∀ j : Nat, j < i₀ → c.counter.getD 0 ≤ j + c.window.getD 1 →
        HOTP.tokenAt digest c j ≠ t) :
    HOTP.verify digest dec rb (.inl t) c =
      .ok (true, some ((i₀ : Int) - c.counter.getD 0)) :=
  HOTP.verify_first_match digest dec rb c s hs t hlen i₀ hlo hhi hmatch hfirst

/-- C2 witness: with the collision secret both counters 0 and 1 produce
the token "071945"; verifying it at base counter 1 with window 1 stops
at the smaller matching counter 0 and reports `delta = -1`. -/
theorem claim2_witness :
    HOTP.verify createHmacSHA1 b32fail rbZero (.inl "071945")
      { secret := some (.sec collisionSeed), counter := some 1,
        window := some 1 } = .ok (true, some ((0 : Int) - 1)) :=
  claim2_first_match createHmacSHA1 b32fail rbZero
    { secret := some (.sec collisionSeed), counter := some 1, window := some 1 }
    collisionSeed rfl "071945" (by decide) 0 (by decide) (by decide) (by decide)
    (fun j hj => absurd hj (Nat.not_lt_zero j))


/-- C1 (amended): for a supplied secret, counters `C`, window `W` and
offset `k ≤ W`, a token generated at counter `C + k` verifies against
base counter `C` with window `W` with `delta = k`, *provided* no
earlier counter of the scan window produces the same token string; and
the token generated at counter `C + W + 1` does not verify, *provided*
no counter of the scan window produces the same token string (6- and
8-digit tokens can collide, in which case the scan's first match wins). -/
theorem claim1_window_roundtrip (digest : DigestAlgorithm → Bytes → Bytes → Bytes)
    (dec : String → Except DecodeError Bytes) (rb : Nat → Bytes)
    (c : HOTPConfigOpt) (s : Bytes) (hs : c.secret = some (.sec s))
    (C W k : Nat) (hk : k ≤ W)
    (hlen : (HOTP.tokenAt digest c (C + k)).length = c.digits.getD 6)
    (hfirst : ∀ j : Nat, j < C + k → C ≤ j + W →
        HOTP.tokenAt digest c j ≠ HOTP.tokenAt digest c (C + k))
    (hmiss : ∀ j : Nat, j ≤ C + W → C ≤ j + W →
        HOTP.tokenAt digest c j ≠ HOTP.tokenAt digest c (C + W + 1)) :
    HOTP.generate digest dec rb { c with counter := some (C + k) } =
      .ok (HOTP.tokenAt digest c (C + k), s) ∧
    HOTP.verify digest dec rb (.inl (HOTP.tokenAt digest c (C + k)))
      { c with counter := some C, window := some W } =
      .ok (true, some (k : Int)) ∧
    HOTP.verify digest dec rb (.inl (HOTP.tokenAt digest c (C + W + 1)))
      { c with counter := some C, window := some W } =
      .ok (false, none) := by
  refine ⟨HOTP.generate_set_counter digest dec rb c s hs (C + k), ?_, ?_⟩
  · have h2 := HOTP.verify_first_match digest dec rb
      { c with counter := some C, window := some W } s hs
      (HOTP.tokenAt digest c (C + k)) hlen (C + k)
      (by show C ≤ C + k + W; omega) (by show C + k ≤ C + W; omega)
      (HOTP.tokenAt_congr digest _ c (C + k) rfl rfl rfl)
      (fun j hj hcd => by
        have e : HOTP.tokenAt digest
            { c with counter := some C, window := some W } j =
            HOTP.tokenAt digest c j :=
          HOTP.tokenAt_congr digest _ _ j rfl rfl rfl
        rw [e]
        exact hfirst j hj hcd)
    have h3 : ((C + k : Nat) : Int) -
        (({ c with counter := some C, window := some W } :
          HOTPConfigOpt).counter.getD 0 : Int) = (k : Int) := by
      show ((C + k : Nat) : Int) - (C : Int) = (k : Int)
      omega
    rw [h3] at h2
    exact h2
  · exact HOTP.verify_no_match digest dec rb
      { c with counter := some C, window := some W } s hs
      (HOTP.tokenAt digest c (C + W + 1))
      (fun j hjlo hjhi => by
        have e : HOTP.tokenAt digest
            { c with counter := some C, window := some W } j =
            HOTP.tokenAt digest c j :=
          HOTP.tokenAt_congr digest _ _ j rfl rfl rfl
        rw [e]
        exact hmiss j hjhi hjlo)


/-- C1 counterexample: the secret `[0, 24, 134, 137]` produces the same
token "071945" at counters 0 and 1.  The token generated at counter
`C + k = 0 + 1` verifies against base counter 0 with window 1, but with
`delta = 0`, not `delta = k = 1`: the scan's first match (counter 0)
wins, refuting the claim as universally stated. -/
theorem claim1_counterexample :
    HOTP.generate createHmacSHA1 b32fail rbZero
      { secret := some (.sec collisionSeed), counter := some 1 } =
      .ok ("071945", collisionSeed) ∧
    HOTP.verify createHmacSHA1 b32fail rbZero (.inl "071945")
      { secret := some (.sec collisionSeed), counter := some 0,
        window := some 1 } = .ok (true, some 0) ∧
    some (0 : Int) ≠ some (1 : Int) :=
  ⟨by decide, by decide, by decide⟩

/-- C1 witness: for the secret `[1, 2, 3]` the tokens at counters 0..3
are pairwise distinct, so with `C = 1`, `W = 1`, `k = 1` the amended
claim yields `delta = 1`, and the token at `C + W + 1 = 3` fails. -/
theorem claim1_witness :
    HOTP.generate createHmacSHA1 b32fail rbZero
      { secret := some (.sec [1, 2, 3]), counter := some 2 } =
      .ok (HOTP.tokenAt createHmacSHA1 { secret := some (.sec [1, 2, 3]) } 2,
        [1, 2, 3]) ∧
    HOTP.verify createHmacSHA1 b32fail rbZero
      (.inl (HOTP.tokenAt createHmacSHA1 { secret := some (.sec [1, 2, 3]) } 2))
      { secret := some (.sec [1, 2, 3]), counter := some 1, window := some 1 } =
      .ok (true, some (1 : Int)) ∧
    HOTP.verify createHmacSHA1 b32fail rbZero
      (.inl (HOTP.tokenAt createHmacSHA1 { secret := some (.sec [1, 2, 3]) } 3))
      { secret := some (.sec [1, 2, 3]), counter := some 1, window := some 1 } =
      .ok (false, none) :=
  claim1_window_roundtrip createHmacSHA1 b32fail rbZero
    { secret := some (.sec [1, 2, 3]) } [1, 2, 3] rfl 1 1 1 (by decide)
    (by decide) (by decide) (by decide)


/-- C3: for a supplied secret, timestamp `T` and positive period `P`,
the TOTP merge sets `counter = floor(T / P)` regardless of any
caller-supplied counter, and the TOTP token equals the HOTP token at
counter `floor(T / P)` with the same secret, digits and algorithm. -/
theorem claim3_time_derivation (digest : DigestAlgorithm → Bytes → Bytes → Bytes)
    (dec : String → Except DecodeError Bytes) (rb : Nat → Bytes) (now : Nat)
    (c : TOTPConfigOpt) (sp : SecretParam) (hs : c.secret = some sp)
    (T P : Nat) (hpos : 0 < P) (hT : c.timestamp = some T)
    (hP : c.period = some P) (m : TOTPConfigOpt)
    (hm : TOTP.mergeConfig dec rb now c = .ok m) :
    m.counter = some (T / P) ∧
    TOTP.generate digest dec rb now c =
      HOTP.generate digest dec rb
        { c.toHOTPConfigOpt with counter := some (T / P) } := by
  constructor
  · have h := (TOTP.mergeFields dec rb now c m hm).2.2.2.1
    rw [hT, hP] at h
    simpa using h
  · have h := TOTP.generate_counter_stomp digest dec rb now c sp hs
    rw [hT, hP] at h
    simpa using h

/-- C3 witness: at timestamp 59 with period 30 the merged counter is 1
even though the caller supplied counter 999, and the TOTP token equals
the HOTP token at counter 1. -/
theorem claim3_witness :
    ({ issuer := some "", label := some "TOTP Authenticator",
        algorithm := some .SHA1, digits := some 6, counter := some 1,
        window := some 1, secret := some (.sec [1, 2, 3]), period := some 30,
        timestamp := some 59 } : TOTPConfigOpt).counter = some 1 ∧
    TOTP.generate createHmacSHA1 b32fail rbZero 0
      { secret := some (.sec [1, 2, 3]), counter := some 999,
        period := some 30, timestamp := some 59 } =
      HOTP.generate createHmacSHA1 b32fail rbZero
        { secret := some (.sec [1, 2, 3]), counter := some 1 } :=
  claim3_time_derivation createHmacSHA1 b32fail rbZero 0
    { secret := some (.sec [1, 2, 3]), counter := some 999, period := some 30,
      timestamp := some 59 } (.sec [1, 2, 3]) rfl 59 30 (by decide) rfl rfl
    { issuer := some "", label := some "TOTP Authenticator",
      algorithm := some .SHA1, digits := some 6, counter := some 1,
      window := some 1, secret := some (.sec [1, 2, 3]), period := some 30,
      timestamp := some 59 } (by decide)

/-- C4: the RFC 6238 test vector: the 20-byte ASCII seed
`"12345678901234567890"`, period 30, 6 digits, SHA1, at 59 seconds
since the epoch produces exactly the token "287082". -/
theorem claim4_rfc6238_vector :
    TOTP.generate createHmacSHA1 b32fail rbZero 0
      { secret := some (.sec rfcSeed), period := some 30, digits := some 6,
        algorithm := some .SHA1, timestamp := some 59 } =
      .ok ("287082", rfcSeed) := by decide

/-- C5: when the caller supplies no period and no label, the TOTP merge
defaults the period to 30 seconds and the label to
"TOTP Authenticator" before delegating to the HOTP engine. -/
theorem claim5_totp_defaults (dec : String → Except DecodeError Bytes)
    (rb : Nat → Bytes) (now : Nat) (c : TOTPConfigOpt)
    (hper : c.period = none) (hlab : c.label = none) (m : TOTPConfigOpt)
    (hm : TOTP.mergeConfig dec rb now c = .ok m) :
    m.period = some 30 ∧ m.label = some "TOTP Authenticator" := by
  have h := TOTP.mergeFields dec rb now c m hm
  constructor
  · have h2 := h.2.1
    rw [hper] at h2
    simpa using h2
  · have h2 := h.1
    rw [hlab] at h2
    simpa using h2

/-- C5 witness: merging the empty configuration yields period 30 and
label "TOTP Authenticator". -/
theorem claim5_witness :
    ({ issuer := some "", label := some "TOTP Authenticator",
        algorithm := some .SHA1, digits := some 6, counter := some 0,
        window := some 1, secret := some (.sec (rbZero 20)),
        period := some 30, timestamp := some 0 } : TOTPConfigOpt).period =
      some 30 ∧
    ({ issuer := some "", label := some "TOTP Authenticator",
        algorithm := some .SHA1, digits := some 6, counter := some 0,
        window := some 1, secret := some (.sec (rbZero 20)),
        period := some 30, timestamp := some 0 } : TOTPConfigOpt).label =
      some "TOTP Authenticator" :=
  claim5_totp_defaults b32fail rbZero 0 {} rfl rfl
    { issuer := some "", label := some "TOTP Authenticator",
      algorithm := some .SHA1, digits := some 6, counter := some 0,
      window := some 1, secret := some (.sec (rbZero 20)), period := some 30,
      timestamp := some 0 } (by decide)


/-- C6 (amended): a caller-supplied window of 0 is honored (the merged
window is 0, not the default 1), so verification at timestamp `Tv`
checks only counter `floor(Tv / P)` and fails whenever the token at
that counter differs from the candidate.  (It is not a failure for
*every* `Tv` crossing a period boundary: 6/8-digit tokens can collide
across counters, in which case the stale token still verifies.) -/
theorem claim6_window0_expiry (digest : DigestAlgorithm → Bytes → Bytes → Bytes)
    (dec : String → Except DecodeError Bytes) (rb : Nat → Bytes)
    (nowG nowV : Nat) (c : TOTPConfigOpt) (s : Bytes)
    (hs : c.secret = some (.sec s)) (T Tv P : Nat) (t : String) (b : Bytes)
    (hgen : TOTP.generate digest dec rb nowG
        { c with timestamp := some T, period := some P, window := some 0 } =
        .ok (t, b))
    (hdiff : HOTP.tokenAt digest c.toHOTPConfigOpt (Tv / P) ≠ t)
    (m : TOTPConfigOpt)
    (hm : TOTP.mergeConfig dec rb nowV
        { c with timestamp := some Tv, period := some P, window := some 0 } =
        .ok m) :
    m.window = some 0 ∧
    TOTP.verify digest dec rb nowV (.inl t)
      { c with timestamp := some Tv, period := some P, window := some 0 } =
      .ok (false, none) := by
  constructor
  · have h := (TOTP.mergeFields dec rb nowV _ m hm).2.2.2.2.1
    simpa using h
  · rw [TOTP.verify_toHOTP digest dec rb nowV (.inl t)
      { c with timestamp := some Tv, period := some P, window := some 0 } s hs]
    refine HOTP.verify_no_match digest dec rb _ s ?_ t ?_
    · exact hs
    intro j h1 h2
    have h1' : Tv / P ≤ j + 0 := h1
    have h2' : j ≤ Tv / P + 0 := h2
    have hj : j = Tv / P := by omega
    subst hj
    intro hEq
    apply hdiff
    rw [← hEq]
    exact HOTP.tokenAt_congr digest _ _ _ rfl rfl rfl


/-- C6 counterexample: with the collision secret `[0, 24, 134, 137]`,
the token generated at timestamp 0 (period 30, window 0) still verifies
at timestamp 30 with window 0 — `floor(30/30) = 1 ≠ 0 = floor(0/30)`,
yet the tokens at counters 0 and 1 coincide, so the claim's "fails at
any timestamp in a different period" is refuted. -/
theorem claim6_counterexample :
    TOTP.generate createHmacSHA1 b32fail rbZero 0
      { secret := some (.sec collisionSeed), period := some 30,
        timestamp := some 0, window := some 0 } =
      .ok ("071945", collisionSeed) ∧
    (30 / 30 : Nat) ≠ (0 / 30 : Nat) ∧
    TOTP.verify createHmacSHA1 b32fail rbZero 0 (.inl "071945")
      { secret := some (.sec collisionSeed), period := some 30,
        timestamp := some 30, window := some 0 } = .ok (true, some 0) :=
  ⟨by decide, by decide, by decide⟩

/-- C6 witness: for the secret `[1, 2, 3]` the tokens at counters 0 and
1 differ, so the token generated at timestamp 0 (period 30, window 0)
fails verification at timestamp 30; the merged window is 0. -/
theorem claim6_witness :
    ({ issuer := some "", label := some "TOTP Authenticator",
        algorithm := some .SHA1, digits := some 6, counter := some 1,
        window := some 0, secret := some (.sec [1, 2, 3]), period := some 30,
        timestamp := some 30 } : TOTPConfigOpt).window = some 0 ∧
    TOTP.verify createHmacSHA1 b32fail rbZero 0
      (.inl (HOTP.tokenAt createHmacSHA1
        { secret := some (.sec [1, 2, 3]) } 0))
      { secret := some (.sec [1, 2, 3]), period := some 30,
        timestamp := some 30, window := some 0 } = .ok (false, none) :=
  claim6_window0_expiry createHmacSHA1 b32fail rbZero 0 0
    { secret := some (.sec [1, 2, 3]) } [1, 2, 3] rfl 0 30 30
    (HOTP.tokenAt createHmacSHA1 { secret := some (.sec [1, 2, 3]) } 0)
    [1, 2, 3] (by decide) (by decide)
    { issuer := some "", label := some "TOTP Authenticator",
      algorithm := some .SHA1, digits := some 6, counter := some 1,
      window := some 0, secret := some (.sec [1, 2, 3]), period := some 30,
      timestamp := some 30 } (by decide)

/-- C7: a string candidate whose length differs from the configured
digit count is rejected as `(false, none)` without any digest work:
the result is the same for every digest function (no HMAC is consulted)
and no error is raised. -/
theorem claim7_length_guard (digest digest2 : DigestAlgorithm → Bytes → Bytes → Bytes)
    (dec : String → Except DecodeError Bytes) (rb : Nat → Bytes)
    (t : String) (c m : HOTPConfigOpt)
    (hm : HOTP.mergeConfig dec rb c = .ok m)
    (hlen : t.length ≠ c.digits.getD 6) :
    HOTP.verify digest dec rb (.inl t) c = .ok (false, none) ∧
    HOTP.verify digest dec rb (.inl t) c =
      HOTP.verify digest2 dec rb (.inl t) c := by
  have hdg := (HOTP.mergeConfig_fields dec rb c m hm).2.2.2.1
  have aux : ∀ d : DigestAlgorithm → Bytes → Bytes → Bytes,
      HOTP.verify d dec rb (.inl t) c = .ok (false, none) := by
    intro d
    unfold HOTP.verify
    rw [hm]
    dsimp only
    have h2 : m.final.digits = c.digits.getD 6 := by
      show m.digits.getD 6 = c.digits.getD 6
      rw [hdg]
      rfl
    rw [if_pos (by rw [h2]; exact hlen)]
  exact ⟨aux digest, (aux digest).trans (aux digest2).symm⟩

/-- C7 witness: the 5-character candidate "12345" is rejected under the
default 6-digit configuration, with the same result under a digest
function that computes nothing at all. -/
theorem claim7_witness :
    HOTP.verify createHmacSHA1 b32fail rbZero (.inl "12345")
      { secret := some (.sec [1, 2, 3]) } = .ok (false, none) ∧
    HOTP.verify createHmacSHA1 b32fail rbZero (.inl "12345")
      { secret := some (.sec [1, 2, 3]) } =
      HOTP.verify digestNull b32fail rbZero (.inl "12345")
        { secret := some (.sec [1, 2, 3]) } :=
  claim7_length_guard createHmacSHA1 digestNull b32fail rbZero "12345"
    { secret := some (.sec [1, 2, 3]) }
    { issuer := some "", label := some "HOTP Authenticator",
      algorithm := some .SHA1, digits := some 6, counter := some 0,
      window := some 1, secret := some (.sec [1, 2, 3]) }
    (by decide) (by decide)

/-- C8: the canonical string signed by the remote validator takes every
parameter key except `h`, sorts keys lexicographically, and joins
`key=value` pairs with `&`; for `{id: "1", nonce: "abc", otp:
"ccccccb"}` it is exactly "id=1&nonce=abc&otp=ccccccb", regardless of
the order the parameters were supplied in and of any `h` entry. -/
theorem claim8_canonical_string :
    YubiKeyOTP.construct_param_string
      [("id", "1"), ("nonce", "abc"), ("otp", "ccccccb")] =
      "id=1&nonce=abc&otp=ccccccb" ∧
    YubiKeyOTP.construct_param_string
      [("otp", "ccccccb"), ("h", "zzz"), ("nonce", "abc"), ("id", "1")] =
      "id=1&nonce=abc&otp=ccccccb" :=
  ⟨by decide, by decide⟩


/-- C9 (amended): the merge does *not* leave the caller-supplied
configuration unchanged — the source's `??=` assignments and the TOTP
counter stomp happen on the caller's own object, and the merged object
the engines consume *is* that object.  The caller-visible post-state is
fully determined: every field holds its filled default and the counter
holds `floor(timestamp / period)`, whatever counter the caller set. -/
theorem claim9_merge_mutation (dec : String → Except DecodeError Bytes)
    (rb : Nat → Bytes) (now : Nat) (c m : TOTPConfigOpt)
    (hm : TOTP.mergeConfig dec rb now c = .ok m) :
    m.label = some (c.label.getD "TOTP Authenticator") ∧
    m.period = some (c.period.getD 30) ∧
    m.timestamp = some (c.timestamp.getD now) ∧
    m.counter = some (c.timestamp.getD now / c.period.getD 30) ∧
    m.window = some (c.window.getD 1) ∧
    m.digits = some (c.digits.getD 6) ∧
    m.algorithm = some (c.algorithm.getD .SHA1) ∧
    m.issuer = some (c.issuer.getD "") :=
  TOTP.mergeFields dec rb now c m hm

/-- C9 counterexample: merging a config that carries `counter = 5`
returns the caller's object with `counter = 1` (timestamp 59, period
30) and the defaults filled in — the object visibly changed, refuting
"the caller-supplied configuration object is left unchanged". -/
theorem claim9_counterexample :
    TOTP.mergeConfig b32fail rbZero 0
      { counter := some 5, period := some 30, timestamp := some 59,
        secret := some (.sec [1, 2, 3]) } =
      .ok { issuer := some "", label := some "TOTP Authenticator",
            algorithm := some .SHA1, digits := some 6, counter := some 1,
            window := some 1, secret := some (.sec [1, 2, 3]),
            period := some 30, timestamp := some 59 } ∧
    ({ issuer := some "", label := some "TOTP Authenticator",
        algorithm := some .SHA1, digits := some 6, counter := some 1,
        window := some 1, secret := some (.sec [1, 2, 3]),
        period := some 30, timestamp := some 59 } : TOTPConfigOpt) ≠
      { counter := some 5, period := some 30, timestamp := some 59,
        secret := some (.sec [1, 2, 3]) } :=
  ⟨by decide, by decide⟩

/-- C9 witness: merging the empty configuration at time 7 produces the
fully-filled post-state the amended claim describes. -/
theorem claim9_witness :
    ({ issuer := some "", label := some "TOTP Authenticator",
        algorithm := some .SHA1, digits := some 6, counter := some 0,
        window := some 1, secret := some (.sec (rbZero 20)),
        period := some 30, timestamp := some 7 } : TOTPConfigOpt).label =
      some "TOTP Authenticator" ∧
    ({ issuer := some "", label := some "TOTP Authenticator",
        algorithm := some .SHA1, digits := some 6, counter := some 0,
        window := some 1, secret := some (.sec (rbZero 20)),
        period := some 30, timestamp := some 7 } : TOTPConfigOpt).period =
      some 30 ∧
    ({ issuer := some "", label := some "TOTP Authenticator",
        algorithm := some .SHA1, digits := some 6, counter := some 0,
        window := some 1, secret := some (.sec (rbZero 20)),
        period := some 30, timestamp := some 7 } : TOTPConfigOpt).timestamp =
      some 7 ∧
    ({ issuer := some "", label := some "TOTP Authenticator",
        algorithm := some .SHA1, digits := some 6, counter := some 0,
        window := some 1, secret := some (.sec (rbZero 20)),
        period := some 30, timestamp := some 7 } : TOTPConfigOpt).counter =
      some 0 ∧
    ({ issuer := some "", label := some "TOTP Authenticator",
        algorithm := some .SHA1, digits := some 6, counter := some 0,
        window := some 1, secret := some (.sec (rbZero 20)),
        period := some 30, timestamp := some 7 } : TOTPConfigOpt).window =
      some 1 ∧
    ({ issuer := some "", label := some "TOTP Authenticator",
        algorithm := some .SHA1, digits := some 6, counter := some 0,
        window := some 1, secret := some (.sec (rbZero 20)),
        period := some 30, timestamp := some 7 } : TOTPConfigOpt).digits =
      some 6 ∧
    ({ issuer := some "", label := some "TOTP Authenticator",
        algorithm := some .SHA1, digits := some 6, counter := some 0,
        window := some 1, secret := some (.sec (rbZero 20)),
        period := some 30, timestamp := some 7 } : TOTPConfigOpt).algorithm =
      some .SHA1 ∧
    ({ issuer := some "", label := some "TOTP Authenticator",
        algorithm := some .SHA1, digits := some 6, counter := some 0,
        window := some 1, secret := some (.sec (rbZero 20)),
        period := some 30, timestamp := some 7 } : TOTPConfigOpt).issuer =
      some "" :=
  claim9_merge_mutation b32fail rbZero 7 {}
    { issuer := some "", label := some "TOTP Authenticator",
      algorithm := some .SHA1, digits := some 6, counter := some 0,
      window := some 1, secret := some (.sec (rbZero 20)), period := some 30,
      timestamp := some 7 } (by decide)

/-- C10: constructing a `Secret` from an empty string seed, or with no
seed at all, never consults the Base32 decoder and cannot fail: both
produce the same secret of freshly generated random bytes of the
default size 20 — in particular a non-empty byte sequence. -/
theorem claim10_secret_empty_seed (decode : String → Except DecodeError Bytes)
    (randomBytes : Nat → Bytes)
    (hrand : ∀ n, (randomBytes n).length = n) :
    Secret.ofStr decode randomBytes "" = .ok (randomBytes 20) ∧
    Secret.make decode randomBytes {} = .ok (randomBytes 20) ∧
    (randomBytes 20).length = 20 ∧ randomBytes 20 ≠ [] := by
  refine ⟨rfl, rfl, hrand 20, ?_⟩
  intro h
  have h2 := hrand 20
  rw [h] at h2
  simp at h2

/-- C10 witness: with the concrete entropy source `rbZero`, the empty
seed and the absent seed both yield the 20 zero bytes. -/
theorem claim10_witness :
    Secret.ofStr b32fail rbZero "" = .ok (rbZero 20) ∧
    Secret.make b32fail rbZero {} = .ok (rbZero 20) ∧
    (rbZero 20).length = 20 ∧ rbZero 20 ≠ [] :=
  claim10_secret_empty_seed b32fail rbZero fun n => by
    simp [rbZero]

end Mfa
